import Mathlib

/-!
Verification of the gesture classification and temporal debouncing engine of
the mini-project virtual-keyboard repository (src/index.js).

The embedding follows the source: `classify` mirrors the if/else chain of
`onResults` (lines 143-194), `onResults` mirrors the debounce logic
(lines 111-124 for the no-hand branch, 201-215 for the hand branch), and
`performAction` mirrors the output-buffer effect (lines 233-245).  The JS
value `null` used for both "NONE gesture" and "no candidate" is modelled as
`Option Gesture` with `none`; time is `Int` milliseconds (`Date.now()`).
-/

/-- The symbolic gestures the classifier can assign (the JS string values
`'SPACE'`, `'BACKSPACE'`, `'A'` .. `'J'`); `NONE` is `none : Option Gesture`,
matching the JS `null`. -/
inductive Gesture where
  | SPACE
  | BACKSPACE
  | A
  | B
  | C
  | D
  | E
  | F
  | G
  | H
  | I
  | J
deriving DecidableEq

/-- The four per-finger booleans computed at lines 138-141 of the source. -/
structure FingerState where
  indexUp : Bool
  middleUp : Bool
  ringUp : Bool
  pinkyUp : Bool
deriving DecidableEq

/-- The if/else classification chain of `onResults`, lines 143-194:
priority-ordered, first match wins, `none` when nothing matches. -/
def classify (s : FingerState) : Option Gesture :=
  let anyFingerUp := s.indexUp || s.middleUp || s.ringUp || s.pinkyUp
  if s.indexUp && s.middleUp && s.ringUp && s.pinkyUp then some .SPACE
  else if !anyFingerUp then some .BACKSPACE
  else if s.indexUp && s.middleUp && s.ringUp && !s.pinkyUp then some .D
  else if s.indexUp && s.middleUp && s.ringUp then some .C
  else if s.middleUp && s.ringUp && s.pinkyUp then some .F
  else if s.indexUp && s.middleUp && !s.ringUp && !s.pinkyUp then some .B
  else if s.indexUp && s.ringUp && !s.middleUp && !s.pinkyUp then some .E
  else if s.middleUp && s.ringUp && !s.indexUp && !s.pinkyUp then some .G
  else if s.indexUp && !s.middleUp && !s.ringUp && !s.pinkyUp then some .A
  else if s.middleUp && !s.indexUp && !s.ringUp && !s.pinkyUp then some .H
  else if s.ringUp && !s.indexUp && !s.middleUp && !s.pinkyUp then some .I
  else if s.pinkyUp && !s.indexUp && !s.middleUp && !s.ringUp then some .J
  else none

/-- `const REQUIRED_CONSECUTIVE = 4` (line 33). -/
def REQUIRED_CONSECUTIVE : Nat := 4

/-- `const ACTION_COOLDOWN = 800` ms (line 35). -/
def ACTION_COOLDOWN : Int := 800

/-- The mutable debounce variables of lines 31-34:
`prevDetectedGesture`, `stableCount`, `lastActionTime`. -/
structure DebounceState where
  prevDetectedGesture : Option Gesture
  stableCount : Nat
  lastActionTime : Int
deriving DecidableEq

/-- Startup values: `prevDetectedGesture = null`, `stableCount = 0`,
`lastActionTime = 0` (lines 31-34). -/
def initState : DebounceState := ⟨none, 0, 0⟩

/-- One call of the `onResults` callback: either no hand was detected, or a
hand with the given finger states was observed at time `now` (`Date.now()`). -/
inductive FrameInput where
  | noHand
  | hand (fs : FingerState) (now : Int)
deriving DecidableEq

/-- The stable-count update of lines 201-206: increment on a repeated
gesture, otherwise restart at 1. -/
def nextCount (st : DebounceState) (g : Option Gesture) : Nat :=
  if g = st.prevDetectedGesture then st.stableCount + 1 else 1

/-- The debounce-relevant effect of one `onResults` call (lines 111-124 and
201-215): returns the updated state and the emitted action, if any.
After lines 201-206 `prevDetectedGesture` equals `gesture` in both branches;
on emission (line 209's condition, JS truthiness of `gesture` plus
`stableCount >= REQUIRED_CONSECUTIVE` plus `now - lastActionTime >
ACTION_COOLDOWN`) the candidate and count are cleared and `lastActionTime`
becomes `now`. -/
def onResults (st : DebounceState) (inp : FrameInput) : DebounceState × Option Gesture :=
  match inp with
  | .noHand => ({ st with prevDetectedGesture := none, stableCount := 0 }, none)
  | .hand fs now =>
    let gesture := classify fs
    let cnt := nextCount st gesture
    if gesture ≠ none ∧ cnt ≥ REQUIRED_CONSECUTIVE ∧ now - st.lastActionTime > ACTION_COOLDOWN then
      (⟨none, 0, now⟩, gesture)
    else
      (⟨gesture, cnt, st.lastActionTime⟩, none)

/-- Process a list of frames in arrival order, collecting emitted actions. -/
def runFrames (st : DebounceState) : List FrameInput → DebounceState × List Gesture
  | [] => (st, [])
  | inp :: rest =>
    let r := onResults st inp
    let rec' := runFrames r.1 rest
    (rec'.1, r.2.toList ++ rec'.2)

/-- The effect of `performAction` (lines 233-245) on the output buffer:
SPACE appends a space, BACKSPACE is `value.slice(0, -1)` (drop the last
character, clamped at the empty string), letters append themselves. -/
def performAction (buf : String) (action : Gesture) : String :=
  match action with
  | .SPACE => buf ++ " "
  | .BACKSPACE => buf.take (buf.length - 1)
  | .A => buf ++ "A"
  | .B => buf ++ "B"
  | .C => buf ++ "C"
  | .D => buf ++ "D"
  | .E => buf ++ "E"
  | .F => buf ++ "F"
  | .G => buf ++ "G"
  | .H => buf ++ "H"
  | .I => buf ++ "I"
  | .J => buf ++ "J"

/-- Modelled from the spec (§4.2): the twelve shape predicates in the fixed
listed order, as an ordered list of (predicate, gesture) pairs. -/
def specRules : List ((FingerState → Bool) × Gesture) :=
  [ (fun s => s.indexUp && s.middleUp && s.ringUp && s.pinkyUp, .SPACE),
    (fun s => !s.indexUp && !s.middleUp && !s.ringUp && !s.pinkyUp, .BACKSPACE),
    (fun s => s.indexUp && s.middleUp && s.ringUp && !s.pinkyUp, .D),
    (fun s => s.indexUp && s.middleUp && s.ringUp, .C),
    (fun s => s.middleUp && s.ringUp && s.pinkyUp, .F),
    (fun s => s.indexUp && s.middleUp && !s.ringUp && !s.pinkyUp, .B),
    (fun s => s.indexUp && s.ringUp && !s.middleUp && !s.pinkyUp, .E),
    (fun s => s.middleUp && s.ringUp && !s.indexUp && !s.pinkyUp, .G),
    (fun s => s.indexUp && !s.middleUp && !s.ringUp && !s.pinkyUp, .A),
    (fun s => s.middleUp && !s.indexUp && !s.ringUp && !s.pinkyUp, .H),
    (fun s => s.ringUp && !s.indexUp && !s.middleUp && !s.pinkyUp, .I),
    (fun s => s.pinkyUp && !s.indexUp && !s.middleUp && !s.ringUp, .J) ]

/-- First-match evaluation of an ordered rule list. -/
def firstMatch (s : FingerState) : List ((FingerState → Bool) × Gesture) → Option Gesture
  | [] => none
  | (p, g) :: rest => if p s then some g else firstMatch s rest

/-- Modelled from the spec: classification as first match over `specRules`. -/
def specClassify (s : FingerState) : Option Gesture :=
  firstMatch s specRules

/-- Whether a classification result is the gesture C. -/
def isC : Option Gesture → Bool
  | some Gesture.C => true
  | _ => false

/-- C4: For every state, processing a "no hand observed" frame resets the
candidate gesture and consecutive count to empty/zero, emits no action, and
leaves `lastActionTime` unchanged. -/
theorem noHand_resets (st : DebounceState) :
    onResults st FrameInput.noHand = (⟨none, 0, st.lastActionTime⟩, none) := by
  rfl

/-- C5: `classify` equals first-match evaluation of the twelve spec rules in
their listed order, with `none` (NONE) when no rule matches; in particular
index and pinky up with middle and ring down yields NONE. -/
theorem classify_eq_specClassify :
    (∀ s : FingerState, classify s = specClassify s) ∧
      classify ⟨true, false, false, true⟩ = none := by
  refine ⟨fun s => ?_, by decide⟩
  obtain ⟨i, m, r, p⟩ := s
  cases i <;> cases m <;> cases r <;> cases p <;> rfl

/-- C6: `classify` never returns the gesture C — rule 4's branch is
unreachable because every finger state with index, middle and ring up is
captured by rule 1 (pinky also up) or rule 3 (pinky down). -/
theorem classify_never_C :
    ∀ s : FingerState, isC (classify s) = false := by
  intro s
  obtain ⟨i, m, r, p⟩ := s
  cases i <;> cases m <;> cases r <;> cases p <;> rfl

/-- C10: applying BACKSPACE to an empty output buffer leaves it empty —
`slice(0, -1)` on the empty string returns the empty string. -/
theorem backspace_empty_buffer :
    performAction "" Gesture.BACKSPACE = "" := by
  rfl

/-- A fist: all four fingers down (classified BACKSPACE). -/
def fist : FingerState := ⟨false, false, false, false⟩

/-- An open palm: all four fingers up (classified SPACE). -/
def palm : FingerState := ⟨true, true, true, true⟩

theorem onResults_hand (st : DebounceState) (fs : FingerState) (now : Int) :
    onResults st (FrameInput.hand fs now) =
      if classify fs ≠ none ∧ nextCount st (classify fs) ≥ REQUIRED_CONSECUTIVE ∧
          now - st.lastActionTime > ACTION_COOLDOWN then
        (⟨none, 0, now⟩, classify fs)
      else
        (⟨classify fs, nextCount st (classify fs), st.lastActionTime⟩, none) := by
  rfl

theorem step_count_lt (st : DebounceState) (fs : FingerState) (now : Int)
    (h : nextCount st (classify fs) < REQUIRED_CONSECUTIVE) :
    onResults st (FrameInput.hand fs now) =
      (⟨classify fs, nextCount st (classify fs), st.lastActionTime⟩, none) := by
  rw [onResults_hand, if_neg]
  intro hcond
  exact absurd hcond.2.1 (by omega)

theorem step_cooldown (st : DebounceState) (fs : FingerState) (now : Int)
    (h : now - st.lastActionTime ≤ ACTION_COOLDOWN) :
    onResults st (FrameInput.hand fs now) =
      (⟨classify fs, nextCount st (classify fs), st.lastActionTime⟩, none) := by
  rw [onResults_hand, if_neg]
  intro hcond
  exact absurd hcond.2.2 (by omega)

theorem step_emit (st : DebounceState) (fs : FingerState) (now : Int)
    (h1 : classify fs ≠ none) (h2 : nextCount st (classify fs) ≥ REQUIRED_CONSECUTIVE)
    (h3 : now - st.lastActionTime > ACTION_COOLDOWN) :
    onResults st (FrameInput.hand fs now) = (⟨none, 0, now⟩, classify fs) := by
  rw [onResults_hand, if_pos ⟨h1, h2, h3⟩]

theorem runFrames_cons (st : DebounceState) (inp : FrameInput) (rest : List FrameInput) :
    runFrames st (inp :: rest) =
      ((runFrames (onResults st inp).1 rest).1,
        (onResults st inp).2.toList ++ (runFrames (onResults st inp).1 rest).2) := by
  rfl

/-- C1 (amended): a hand frame emits an action iff the classified gesture is
not NONE, the updated count has reached REQUIRED_CONSECUTIVE, and STRICTLY
more than ACTION_COOLDOWN has elapsed since the last action; on emission the
state becomes (no candidate, count 0, lastActionTime = now) and the emitted
action is the classified gesture. -/
theorem hand_emit_iff (st : DebounceState) (fs : FingerState) (now : Int) :
    ((onResults st (.hand fs now)).2.isSome ↔
      ((classify fs).isSome ∧ nextCount st (classify fs) ≥ REQUIRED_CONSECUTIVE ∧
        now - st.lastActionTime > ACTION_COOLDOWN)) ∧
    (∀ a : Gesture, (onResults st (.hand fs now)).2 = some a →
      (onResults st (.hand fs now)).1 = ⟨none, 0, now⟩ ∧ classify fs = some a) := by
  rw [onResults_hand]
  by_cases hcond : classify fs ≠ none ∧ nextCount st (classify fs) ≥ REQUIRED_CONSECUTIVE ∧
      now - st.lastActionTime > ACTION_COOLDOWN
  · rw [if_pos hcond]
    refine ⟨⟨fun _ => ⟨Option.isSome_iff_ne_none.mpr hcond.1, hcond.2⟩, fun h =>
      Option.isSome_iff_ne_none.mpr hcond.1⟩, fun a ha => ⟨rfl, ha⟩⟩
  · rw [if_neg hcond]
    refine ⟨⟨fun h => absurd rfl (Option.isSome_iff_ne_none.mp h), fun h => ?_⟩,
      fun a ha => absurd ha (by simp)⟩
    exact absurd ⟨Option.isSome_iff_ne_none.mp h.1, h.2⟩ hcond

/-- C1 witness: at state (candidate BACKSPACE, count 3, lastActionTime 0), a
fist frame at time 900 emits, clearing the state and yielding BACKSPACE. -/
theorem hand_emit_iff_witness :
    (onResults ⟨some Gesture.BACKSPACE, 3, 0⟩ (.hand fist 900)).1 = ⟨none, 0, 900⟩ ∧
      classify fist = some Gesture.BACKSPACE :=
  (hand_emit_iff ⟨some Gesture.BACKSPACE, 3, 0⟩ fist 900).2 Gesture.BACKSPACE (by decide)

/-- C1 counterexample: at elapsed time exactly ACTION_COOLDOWN (800 ms) the
claim's conditions hold (gesture not NONE, count at 4, elapsed ≥ 800) yet the
code emits nothing, because line 209 requires strictly more than 800 ms. -/
theorem cooldown_boundary_cex :
    (classify fist).isSome ∧
      nextCount ⟨some Gesture.BACKSPACE, 3, 0⟩ (classify fist) ≥ REQUIRED_CONSECUTIVE ∧
      (800 : Int) - (0 : Int) ≥ ACTION_COOLDOWN ∧
      (onResults ⟨some Gesture.BACKSPACE, 3, 0⟩ (.hand fist 800)).2 = none := by
  decide

/-- C3 counterexample: four fist frames at t = 0, 100, 200, 300 from the
initial state emit nothing — the cooldown measured from the initial
lastActionTime of 0 has not elapsed (300 - 0 is not greater than 800). -/
theorem fist_scenario_cex :
    (runFrames initState [.hand fist 0, .hand fist 100, .hand fist 200, .hand fist 300]).2 = []
      ∧ ((runFrames initState
          [.hand fist 0, .hand fist 100, .hand fist 200, .hand fist 300]).2
            == [Gesture.BACKSPACE]) = false := by
  decide

/-- C3 (amended): four fist frames at t = 1000, 1100, 1200, 1300 from the
initial state emit BACKSPACE exactly once, on the t = 1300 frame (the first
three frames emit nothing, and the final lastActionTime is 1300). -/
theorem fist_scenario_amended :
    (runFrames initState [.hand fist 1000, .hand fist 1100, .hand fist 1200]).2 = [] ∧
      runFrames initState [.hand fist 1000, .hand fist 1100, .hand fist 1200, .hand fist 1300]
        = (⟨none, 0, 1300⟩, [Gesture.BACKSPACE]) := by
  decide

/-- C7: from the initial state, three frames classified as the same non-NONE
gesture followed by one frame classified differently never emit an action. -/
theorem three_then_differ_no_emit (fs fs' : FingerState) (g : Gesture)
    (t1 t2 t3 t4 : Int) (hc : classify fs = some g) (hne : classify fs' ≠ some g) :
    (runFrames initState [.hand fs t1, .hand fs t2, .hand fs t3, .hand fs' t4]).2 = [] := by
  have n1 : nextCount initState (classify fs) = 1 := by
    simp [nextCount, initState, hc]
  have e1 : onResults initState (.hand fs t1) = (⟨some g, 1, 0⟩, none) := by
    rw [step_count_lt initState fs t1 (by rw [n1]; decide), n1, hc]
    rfl
  have n2 : nextCount ⟨some g, 1, 0⟩ (classify fs) = 2 := by
    simp [nextCount, hc]
  have e2 : onResults ⟨some g, 1, 0⟩ (.hand fs t2) = (⟨some g, 2, 0⟩, none) := by
    rw [step_count_lt ⟨some g, 1, 0⟩ fs t2 (by rw [n2]; decide), n2, hc]
  have n3 : nextCount ⟨some g, 2, 0⟩ (classify fs) = 3 := by
    simp [nextCount, hc]
  have e3 : onResults ⟨some g, 2, 0⟩ (.hand fs t3) = (⟨some g, 3, 0⟩, none) := by
    rw [step_count_lt ⟨some g, 2, 0⟩ fs t3 (by rw [n3]; decide), n3, hc]
  have n4 : nextCount ⟨some g, 3, 0⟩ (classify fs') = 1 := by
    simp [nextCount, hne]
  have e4 : onResults ⟨some g, 3, 0⟩ (.hand fs' t4) = (⟨classify fs', 1, 0⟩, none) := by
    rw [step_count_lt ⟨some g, 3, 0⟩ fs' t4 (by rw [n4]; decide), n4]
  simp [runFrames_cons, e1, e2, e3, e4, runFrames]

/-- C7 witness: three fist frames then a palm frame emit nothing. -/
theorem three_then_differ_no_emit_witness :
    (runFrames initState
      [.hand fist 1000, .hand fist 1100, .hand fist 1200, .hand palm 1300]).2 = [] :=
  three_then_differ_no_emit fist palm Gesture.BACKSPACE 1000 1100 1200 1300
    (by decide) (by decide)

/-- C8: from the initial state with the cooldown satisfied at the fourth
frame, four frames classified as the same non-NONE gesture emit exactly that
one action over the whole sequence. -/
theorem four_same_emits_once (fs : FingerState) (g : Gesture) (t1 t2 t3 t4 : Int)
    (hc : classify fs = some g)
    (ht : t4 - initState.lastActionTime > ACTION_COOLDOWN) :
    (runFrames initState [.hand fs t1, .hand fs t2, .hand fs t3, .hand fs t4]).2 = [g] := by
  have n1 : nextCount initState (classify fs) = 1 := by
    simp [nextCount, initState, hc]
  have e1 : onResults initState (.hand fs t1) = (⟨some g, 1, 0⟩, none) := by
    rw [step_count_lt initState fs t1 (by rw [n1]; decide), n1, hc]
    rfl
  have n2 : nextCount ⟨some g, 1, 0⟩ (classify fs) = 2 := by
    simp [nextCount, hc]
  have e2 : onResults ⟨some g, 1, 0⟩ (.hand fs t2) = (⟨some g, 2, 0⟩, none) := by
    rw [step_count_lt ⟨some g, 1, 0⟩ fs t2 (by rw [n2]; decide), n2, hc]
  have n3 : nextCount ⟨some g, 2, 0⟩ (classify fs) = 3 := by
    simp [nextCount, hc]
  have e3 : onResults ⟨some g, 2, 0⟩ (.hand fs t3) = (⟨some g, 3, 0⟩, none) := by
    rw [step_count_lt ⟨some g, 2, 0⟩ fs t3 (by rw [n3]; decide), n3, hc]
  have n4 : nextCount ⟨some g, 3, 0⟩ (classify fs) = 4 := by
    simp [nextCount, hc]
  have e4 : onResults ⟨some g, 3, 0⟩ (.hand fs t4) = (⟨none, 0, t4⟩, some g) := by
    rw [step_emit ⟨some g, 3, 0⟩ fs t4 (by rw [hc]; exact Option.noConfusion)
      (by rw [n4]; decide) (by exact ht), hc]
  simp [runFrames_cons, e1, e2, e3, e4, runFrames]

/-- C8 witness: four palm frames, the last at t = 1000 (cooldown satisfied),
emit exactly one SPACE. -/
theorem four_same_emits_once_witness :
    (runFrames initState
      [.hand palm 100, .hand palm 200, .hand palm 300, .hand palm 1000]).2
        = [Gesture.SPACE] :=
  four_same_emits_once palm Gesture.SPACE 100 200 300 1000 (by decide) (by decide)

theorem step_no_emit (st : DebounceState) (fs : FingerState) (now : Int)
    (h : ¬(classify fs ≠ none ∧ nextCount st (classify fs) ≥ REQUIRED_CONSECUTIVE ∧
      now - st.lastActionTime > ACTION_COOLDOWN)) :
    onResults st (FrameInput.hand fs now) =
      (⟨classify fs, nextCount st (classify fs), st.lastActionTime⟩, none) := by
  rw [onResults_hand, if_neg h]

theorem nextCount_le (st : DebounceState) (g : Option Gesture) :
    nextCount st g ≤ st.stableCount + 1 := by
  unfold nextCount
  split <;> omega

theorem runFrames_low_count (l : List FrameInput) :
    ∀ st : DebounceState, st.stableCount + l.length < REQUIRED_CONSECUTIVE →
      (runFrames st l).2 = [] := by
  induction l with
  | nil => intro st _; rfl
  | cons inp rest ih =>
    intro st h
    rw [List.length_cons] at h
    match inp with
    | .noHand =>
      rw [runFrames_cons, noHand_resets]
      simp only [Option.toList, List.nil_append]
      exact ih ⟨none, 0, st.lastActionTime⟩ (by show 0 + rest.length < _; omega)
    | .hand fs t =>
      have hle := nextCount_le st (classify fs)
      have hlt : nextCount st (classify fs) < REQUIRED_CONSECUTIVE := by omega
      rw [runFrames_cons, step_count_lt st fs t hlt]
      simp only [Option.toList, List.nil_append]
      exact ih ⟨classify fs, nextCount st (classify fs), st.lastActionTime⟩
        (by show nextCount st (classify fs) + rest.length < _; omega)

theorem runFrames_cooldown (ts : List Int) :
    ∀ (st : DebounceState) (fs2 : FingerState),
      (∀ t ∈ ts, t - st.lastActionTime ≤ ACTION_COOLDOWN) →
      (runFrames st (ts.map (FrameInput.hand fs2))).2 = [] := by
  induction ts with
  | nil => intro st fs2 _; rfl
  | cons t ts' ih =>
    intro st fs2 h
    rw [List.map_cons, runFrames_cons, step_cooldown st fs2 t (h t (by simp))]
    simp only [Option.toList, List.nil_append]
    exact ih ⟨classify fs2, nextCount st (classify fs2), st.lastActionTime⟩ fs2
      (fun u hu => h u (List.mem_cons_of_mem t hu))

theorem emitted_state (st : DebounceState) (fs : FingerState) (now : Int)
    (st' : DebounceState) (a : Gesture)
    (h : onResults st (.hand fs now) = (st', some a)) : st' = ⟨none, 0, now⟩ := by
  rw [onResults_hand] at h
  by_cases hcond : classify fs ≠ none ∧ nextCount st (classify fs) ≥ REQUIRED_CONSECUTIVE ∧
      now - st.lastActionTime > ACTION_COOLDOWN
  · rw [if_pos hcond] at h
    exact ((Prod.mk.injEq _ _ _ _).mp h).1.symm
  · rw [if_neg hcond] at h
    exact absurd ((Prod.mk.injEq _ _ _ _).mp h).2 (by simp)

/-- C9: immediately after an emission, resending hand frames classified as
the same gesture never emits again while either fewer than
REQUIRED_CONSECUTIVE frames have been sent (the count cannot have rebuilt)
or every frame time is within ACTION_COOLDOWN of the emission time. -/
theorem no_refire_until_rebuilt_and_cooldown
    (st st' : DebounceState) (fs fs2 : FingerState) (now : Int) (a : Gesture)
    (hEmit : onResults st (.hand fs now) = (st', some a))
    (hsame : classify fs2 = some a) (ts : List Int)
    (hcond : ts.length < REQUIRED_CONSECUTIVE ∨ ∀ t ∈ ts, t - now ≤ ACTION_COOLDOWN) :
    (runFrames st' (ts.map (FrameInput.hand fs2))).2 = [] := by
  have hst : st' = ⟨none, 0, now⟩ := emitted_state st fs now st' a hEmit
  subst hst
  rcases hcond with hlen | htime
  · exact runFrames_low_count _ _
      (by show 0 + (ts.map (FrameInput.hand fs2)).length < _; rw [List.length_map]; omega)
  · exact runFrames_cooldown ts _ fs2 htime

/-- C9 witness: after SPACE is emitted at t = 1000, three more palm frames at
t = 1100, 1200, 1300 emit nothing. -/
theorem no_refire_until_rebuilt_and_cooldown_witness :
    (runFrames ⟨none, 0, 1000⟩ ([1100, 1200, 1300].map (FrameInput.hand palm))).2 = [] :=
  no_refire_until_rebuilt_and_cooldown ⟨some Gesture.SPACE, 3, 0⟩ ⟨none, 0, 1000⟩ palm palm
    1000 Gesture.SPACE (by decide) (by decide) [1100, 1200, 1300] (Or.inl (by decide))

/-- Length of the trailing run of frames (viewed by their classifications)
equal to `g` in a list of per-frame classifications. -/
def trailingRun (g : Option Gesture) (l : List (Option Gesture)) : Nat :=
  (l.reverse.takeWhile (fun h => h == g)).length

/-- Number of immediately preceding frames of a trace (including the current
one) that are hand frames whose classified gesture equals `g`. -/
def trailingMatches (g : Option Gesture) (tr : List FrameInput) : Nat :=
  (tr.reverse.takeWhile (fun inp =>
    match inp with
    | FrameInput.hand fs _ => classify fs == g
    | FrameInput.noHand => false)).length

/-- `runFrames` instrumented with the list of classifications seen since the
most recent reset (startup, no-hand frame, or emission). -/
def runSeg (st : DebounceState) (seg : List (Option Gesture)) :
    List FrameInput → DebounceState × List (Option Gesture)
  | [] => (st, seg)
  | inp :: rest =>
    let r := onResults st inp
    let seg' :=
      match inp, r.2 with
      | .noHand, _ => []
      | .hand _ _, some _ => []
      | .hand fs _, none => seg ++ [classify fs]
    runSeg r.1 seg' rest

theorem runSeg_cons (st : DebounceState) (seg : List (Option Gesture))
    (inp : FrameInput) (rest : List FrameInput) :
    runSeg st seg (inp :: rest) =
      runSeg (onResults st inp).1
        (match inp, (onResults st inp).2 with
          | .noHand, _ => []
          | .hand _ _, some _ => []
          | .hand fs _, none => seg ++ [classify fs]) rest := by
  rfl

theorem trailingRun_concat_same (g : Option Gesture) (l : List (Option Gesture)) :
    trailingRun g (l ++ [g]) = trailingRun g l + 1 := by
  unfold trailingRun
  rw [List.reverse_append]
  simp [List.takeWhile_cons]

theorem trailingRun_head_ne (g x : Option Gesture) (l : List (Option Gesture))
    (h : l.reverse.head? = some x) (hne : x ≠ g) : trailingRun g l = 0 := by
  unfold trailingRun
  cases hrev : l.reverse with
  | nil => rfl
  | cons a as =>
    rw [hrev] at h
    have hax : a = x := by simpa using h
    subst hax
    simp [List.takeWhile_cons, hne]

/-- The invariant coupling a debounce state with the classifications seen
since the most recent reset: the stable count is the trailing run of the
candidate, and the last classification (if any) is the candidate. -/
def segInv (st : DebounceState) (seg : List (Option Gesture)) : Prop :=
  st.stableCount = trailingRun st.prevDetectedGesture seg ∧
    ∀ x, seg.reverse.head? = some x → x = st.prevDetectedGesture

theorem segInv_step_hand (st : DebounceState) (seg : List (Option Gesture))
    (fs : FingerState) (h : segInv st seg) :
    segInv ⟨classify fs, nextCount st (classify fs), st.lastActionTime⟩
      (seg ++ [classify fs]) := by
  constructor
  · show nextCount st (classify fs) = trailingRun (classify fs) (seg ++ [classify fs])
    rw [trailingRun_concat_same]
    unfold nextCount
    by_cases heq : classify fs = st.prevDetectedGesture
    · rw [if_pos heq, h.1, heq]
    · rw [if_neg heq]
      have hz : trailingRun (classify fs) seg = 0 := by
        cases hseg : seg.reverse.head? with
        | none =>
          have hnil : seg = [] :=
            List.reverse_eq_nil_iff.mp (List.head?_eq_none_iff.mp hseg)
          subst hnil; rfl
        | some x =>
          exact trailingRun_head_ne (classify fs) x seg hseg
            (fun hx => heq (hx ▸ h.2 x hseg))
      rw [hz]
  · intro x hx
    rw [List.reverse_append] at hx
    have hsx : some (classify fs) = some x := by simpa using hx
    exact (Option.some.injEq _ _ ▸ hsx).symm

theorem runSeg_inv (tr : List FrameInput) :
    ∀ (st : DebounceState) (seg : List (Option Gesture)), segInv st seg →
      segInv (runSeg st seg tr).1 (runSeg st seg tr).2 := by
  induction tr with
  | nil => intro st seg h; exact h
  | cons inp rest ih =>
    intro st seg h
    match inp with
    | .noHand =>
      rw [runSeg_cons, noHand_resets]
      show segInv (runSeg (⟨none, 0, st.lastActionTime⟩ : DebounceState) [] rest).1
        (runSeg (⟨none, 0, st.lastActionTime⟩ : DebounceState) [] rest).2
      exact ih _ _ ⟨rfl, fun x hx => by simp at hx⟩
    | .hand fs t =>
      by_cases hcond : classify fs ≠ none ∧
          nextCount st (classify fs) ≥ REQUIRED_CONSECUTIVE ∧
          t - st.lastActionTime > ACTION_COOLDOWN
      · obtain ⟨g', hg'⟩ := Option.ne_none_iff_exists'.mp hcond.1
        rw [runSeg_cons, step_emit st fs t hcond.1 hcond.2.1 hcond.2.2, hg']
        show segInv (runSeg (⟨none, 0, t⟩ : DebounceState) [] rest).1
          (runSeg (⟨none, 0, t⟩ : DebounceState) [] rest).2
        exact ih _ _ ⟨rfl, fun x hx => by simp at hx⟩
      · rw [runSeg_cons, step_no_emit st fs t hcond]
        show segInv
          (runSeg (⟨classify fs, nextCount st (classify fs), st.lastActionTime⟩ :
            DebounceState) (seg ++ [classify fs]) rest).1
          (runSeg (⟨classify fs, nextCount st (classify fs), st.lastActionTime⟩ :
            DebounceState) (seg ++ [classify fs]) rest).2
        exact ih _ _ (segInv_step_hand st seg fs h)

/-- The five-fist-frame trace used to refute the literal C2 invariant: the
fourth frame emits, so the fifth rebuilds the count from scratch. -/
def cexTrace : List FrameInput :=
  [.hand fist 1000, .hand fist 1100, .hand fist 1200, .hand fist 1300, .hand fist 1400]

/-- C2 counterexample: after five fist frames at t = 1000..1400 the candidate
is BACKSPACE and the count is 1, yet all five immediately preceding frames
(including the current one) are classified BACKSPACE — the emission on the
fourth frame reset the count, so the literal invariant fails. -/
theorem count_history_cex :
    (runFrames initState cexTrace).1.prevDetectedGesture = some Gesture.BACKSPACE ∧
      (runFrames initState cexTrace).1.stableCount = 1 ∧
      trailingMatches (runFrames initState cexTrace).1.prevDetectedGesture cexTrace = 5 ∧
      ((runFrames initState cexTrace).1.stableCount
          == trailingMatches (runFrames initState cexTrace).1.prevDetectedGesture cexTrace)
        = false := by
  decide

/-- C2 (amended): in every reachable state, `stableCount` equals the number
of immediately preceding frames (including the current one) whose classified
gesture equals the candidate, counted only since the most recent reset
(startup, no-hand frame, or emission); any change in the classified gesture
still resets the count to 1. -/
theorem stableCount_eq_trailingRun (tr : List FrameInput) :
    (runSeg initState [] tr).1.stableCount =
      trailingRun (runSeg initState [] tr).1.prevDetectedGesture (runSeg initState [] tr).2 :=
  (runSeg_inv tr initState [] ⟨rfl, fun x hx => by simp at hx⟩).1
